import Mathlib

/-!
Shallow embedding of the `ollama_multi` package (azure-mcp-vmdiag repository):
conversation history management (`history.py`), the MCP manager's tool
invocation (`mcp_manager.py`), and the tool-call loop controller
(`cli.py`, `_answer_with_tools` / `start`).

Python dicts representing chat messages are modelled by the `Msg` structure;
Python `int` counts are modelled by `Nat`; Python slicing `l[-n:]` is modelled
by `pySliceLast` (note `l[-0:] = l`); exceptions are modelled by `Except`;
external I/O (the model backend, the MCP transport, the filesystem) is
modelled by explicit oracle parameters, so "operation X is never invoked"
becomes "the result does not depend on the oracle for X".
-/

namespace OllamaMulti

/-- A chat message: Python dict `{"role": r, "content": c, "name": n?}`.
`tag` models the optional `"name"` key attached to tool messages. -/
structure Msg where
  role : String
  content : String
  tag : Option String
deriving DecidableEq, Repr

/-! ## history.py -/

/-- Python `l[-n:]`: for `n = 0` this is `l[0:] = l` (the whole list),
for `n ≥ 1` it is the last `min n l.length` elements. -/
def pySliceLast (l : List Msg) (n : Nat) : List Msg :=
  if n = 0 then l else l.drop (l.length - n)

/-- `trim_history(messages, max_turns)` from `history.py` lines 19-28:
keep the last `max_turns` messages of the non-system core; always keep the
initial system message. -/
def trim_history (messages : List Msg) (max_turns : Nat) : List Msg :=
  match messages with
  | [] => []
  | first :: rest =>
    let system : Option Msg := if first.role = "system" then some first else none
    let core : List Msg := if system.isSome then rest else first :: rest
    if core.length ≤ max_turns then first :: rest
    else
      let trimmed := pySliceLast core max_turns
      match system with
      | some s => s :: trimmed
      | none => trimmed

/-- The "non-system portion" of a conversation: what the source calls `core`
(everything after the leading system message, if any). -/
def corePortion (msgs : List Msg) : List Msg :=
  match msgs with
  | [] => []
  | m :: rest => if m.role = "system" then rest else m :: rest

/-- The leading system message, when the first message has role `system`. -/
def leadSystem (msgs : List Msg) : Option Msg :=
  match msgs with
  | [] => none
  | m :: _ => if m.role = "system" then some m else none

/-! ## mcp_manager.py -/

/-- Python truthiness of an optional string (`if server:` in the source):
`None` and `""` are falsy. -/
def pyTruthy : Option String → Bool
  | none => false
  | some s => !s.isEmpty

/-- Python `str(x)` rendering of a value that is a string or `None`. -/
def pyStrOfOpt : Option String → String
  | none => "None"
  | some s => s

/-- Tool argument mapping (a Python dict of JSON values); the embedding only
passes it through, so string values suffice. `{}` is `[]`. -/
abbrev Args := List (String × String)

/-- A tool summary `{name, description}` as produced by `list_tools`. -/
structure ToolDesc where
  name : String
  description : String
deriving DecidableEq, Repr

/-- One content block of an MCP tool result: either a `types.TextContent`
carrying `.text`, or some other block whose `__dict__` (of serializable type
`σ`) is rendered as a fallback. -/
inductive ContentBlock (σ : Type) where
  | textContent (text : String)
  | otherContent (fields : σ)
deriving DecidableEq, Repr

/-- The result of `session.call_tool`: optional `structuredContent` plus a
list of content blocks. -/
structure CallToolResult (σ : Type) where
  structuredContent : Option σ
  content : List (ContentBlock σ)
deriving DecidableEq, Repr

/-- The `parts` accumulation loop of `MCPManager.call_tool` lines 79-84:
text blocks contribute their text, other blocks a rendering of their fields
via `_safe_to_str` (the parameter `f`). -/
def flattenParts {σ : Type} (f : σ → String) : List (ContentBlock σ) → List String
  | [] => []
  | ContentBlock.textContent t :: cs => t :: flattenParts f cs
  | ContentBlock.otherContent d :: cs => f d :: flattenParts f cs

/-- What one content block contributes to the flattened output. -/
def renderBlock {σ : Type} (f : σ → String) : ContentBlock σ → String
  | ContentBlock.textContent t => t
  | ContentBlock.otherContent d => f d

/-- `MCPManager.call_tool(server, tool_name, arguments)` from
`mcp_manager.py` lines 63-85. `sessions` is the key set of `self.sessions`;
`remote` is the transport round trip `session.call_tool` (its `Except.error`
models a raised exception); `f` is `_safe_to_str`. -/
def call_tool {σ : Type} (sessions : List String)
    (remote : String → String → Args → Except String (CallToolResult σ))
    (f : σ → String) (server tool_name : String) (arguments : Args) :
    Except String String :=
  if server ∉ sessions then Except.error (s!"Unknown MCP server: {server}")
  else
    match remote server tool_name arguments with
    | Except.error e => Except.error e
    | Except.ok result =>
      match result.structuredContent with
      | some payload => Except.ok (f payload)
      | none =>
        Except.ok (String.intercalate "\n" (flattenParts f result.content))

/-! ## cli.py — the tool-call loop controller -/

/-- One tool-call request from the model. Fields flatten the source's
`call["function"]["name"]` and `call["function"]["arguments"]` dict with its
optional `server` / `tool` / `arguments` keys. -/
structure ToolCall where
  name : Option String
  server : Option String
  tool : Option String
  arguments : Option Args
deriving DecidableEq, Repr

/-- One model-backend response `resp["message"]`: optional visible content
plus a (possibly empty) list of tool calls (`msg.get("tool_calls", []) or []`). -/
structure ModelResponse where
  content : Option String
  tool_calls : List ToolCall
deriving DecidableEq, Repr

/-- The catalog filter of `_answer_with_tools` lines 90-95: with a truthy
`server` argument the result is `{server: tools_map.get(server, [])}`,
otherwise the whole map. -/
def listToolsFiltered (tools_map : List (String × List ToolDesc))
    (server : Option String) : List (String × List ToolDesc) :=
  match server with
  | some s =>
    if s.isEmpty then tools_map else [(s, (tools_map.lookup s).getD [])]
  | none => tools_map

/-- Dispatch of a single tool call, `_answer_with_tools` lines 84-113.
`lt` is the transport round trip `self.mcp.list_tools()` (note: not guarded
by `try`, so its failure propagates); `inv` is `self.mcp.call_tool`; `dump`
is `json.dumps`. Returns the tool-role message appended at line 113. -/
def processCall (lt : Unit → Except String (List (String × List ToolDesc)))
    (inv : String → String → Args → Except String String)
    (dump : List (String × List ToolDesc) → String) (c : ToolCall) :
    Except String Msg :=
  if c.name = some "mcp_list_tools" then
    match lt () with
    | Except.error e => Except.error e
    | Except.ok tools_map =>
      Except.ok (Msg.mk "tool" (dump (listToolsFiltered tools_map c.server))
        c.name)
  else if c.name = some "mcp_call_tool" then
    if !pyTruthy c.server || !pyTruthy c.tool then
      Except.ok (Msg.mk "tool"
        "Error: mcp_call_tool requires 'server' and 'tool'." c.name)
    else
      let s := c.server.getD ""
      let t := c.tool.getD ""
      match inv s t (c.arguments.getD []) with
      | Except.ok out => Except.ok (Msg.mk "tool" out c.name)
      | Except.error e =>
        Except.ok (Msg.mk "tool" (s!"Error calling {s}.{t}: {e}") c.name)
  else
    Except.ok (Msg.mk "tool" (s!"Unknown tool request: {pyStrOfOpt c.name}")
      c.name)

/-- The `for call in tool_calls` loop: each result message is appended to the
conversation in request order. An uncaught exception aborts the whole loop
(in the source it propagates out of `_answer_with_tools` and kills the
process, so the post-exception conversation is never observed). -/
def processCalls (lt : Unit → Except String (List (String × List ToolDesc)))
    (inv : String → String → Args → Except String String)
    (dump : List (String × List ToolDesc) → String) :
    List ToolCall → List Msg → Except String (List Msg)
  | [], msgs => Except.ok msgs
  | c :: cs, msgs =>
    match processCall lt inv dump c with
    | Except.error e => Except.error e
    | Except.ok m => processCalls lt inv dump cs (msgs ++ [m])

/-- `if msg.get("content"): assistant_text_chunks.append(msg["content"])` —
the chunk a response contributes to the buffered visible text. -/
def contentChunks : Option String → List String
  | none => []
  | some s => if s.isEmpty then [] else [s]

/-- `"\n".join([t for t in assistant_text_chunks if t])`. -/
def pyJoinChunks (chunks : List String) : String :=
  String.intercalate "\n" (chunks.filter (fun t => !t.isEmpty))

/-- The `while tool_calls:` loop of `_answer_with_tools` lines 83-125.
`resps` is the oracle for the remaining model-backend responses, one per
round; `none` means the oracle was exhausted while the model kept requesting
tools (the source has no such bound). On the round whose `tool_calls` is
empty the loop terminates: the buffered chunks are joined, appended as the
single final assistant message, and returned. -/
def runLoop (lt : Unit → Except String (List (String × List ToolDesc)))
    (inv : String → String → Args → Except String String)
    (dump : List (String × List ToolDesc) → String) :
    List ModelResponse → List ToolCall → List Msg → List String →
    Option (Except String (List Msg × String))
  | _, [], msgs, chunks =>
    some (Except.ok
      (msgs ++ [Msg.mk "assistant" (pyJoinChunks chunks) none],
        pyJoinChunks chunks))
  | resps, c :: cs, msgs, chunks =>
    match processCalls lt inv dump (c :: cs) msgs with
    | Except.error e => some (Except.error e)
    | Except.ok msgs2 =>
      match resps with
      | [] => none
      | r :: rest =>
        runLoop lt inv dump rest r.tool_calls msgs2
          (chunks ++ contentChunks r.content)

/-- `_answer_with_tools`: first model round, then the tool-call loop. -/
def answerWithTools (lt : Unit → Except String (List (String × List ToolDesc)))
    (inv : String → String → Args → Except String String)
    (dump : List (String × List ToolDesc) → String)
    (resps : List ModelResponse) (msgs : List Msg) :
    Option (Except String (List Msg × String)) :=
  match resps with
  | [] => none
  | r :: rest => runLoop lt inv dump rest r.tool_calls msgs
      (contentChunks r.content)

/-- Scans a conversation checking that every tool-role message has an
earlier assistant-role message; `seen` records whether an assistant message
has occurred so far. -/
def toolPrecededBy (seen : Bool) : List Msg → Bool
  | [] => true
  | m :: rest =>
    if m.role == "tool" && !seen then false
    else toolPrecededBy (seen || m.role == "assistant") rest

/-- Every tool message is preceded (anywhere earlier in the sequence) by an
assistant message — the conversation invariant of spec §3. -/
def everyToolPrecededByAssistant (msgs : List Msg) : Bool :=
  toolPrecededBy false msgs

/-! ## history I/O (history.py lines 5-17) and startup seeding (cli.py) -/

/-- `SYSTEM_PROMPT` from `cli.py`. -/
def SYSTEM_PROMPT : String :=
  "You are an AI assistant with access to two MCP servers: 'azure' and 'filesystem'.\nYou can discover tools with mcp_list_tools, then invoke them with mcp_call_tool.\nWhen you need to interact with Azure or the local filesystem, call an MCP tool.\nPrefer to call mcp_list_tools first if you are unsure about arguments or available tools.\nBe concise and explain what you did."

/-- `load_history(path)`: `fileContents` is `path.read_text()` when the path
exists (`none` models an absent file); `parse` is `json.loads` restricted to
message lists, returning `none` when it raises. Both failure modes yield the
empty conversation. -/
def load_history (fileContents : Option String)
    (parse : String → Option (List Msg)) : List Msg :=
  match fileContents with
  | none => []
  | some s =>
    match parse s with
    | some msgs => msgs
    | none => []

/-- `save_history(path, messages)`: `write` is `path.write_text` on the
serialized messages; a raised exception (`Except.error`) is swallowed by the
`except: pass`, so the function always returns normally (`Except.ok`). -/
def save_history (write : String → Except String Unit) (serialized : String) :
    Except String Unit :=
  match write serialized with
  | Except.ok u => Except.ok u
  | Except.error _ => Except.ok ()

/-- `ChatApp.start` lines 34-36: restore prior history, but reset to the
single system-prompt message when it is empty or does not start with a
system-role message. -/
def startMessages (loaded : List Msg) : List Msg :=
  match loaded with
  | [] => [Msg.mk "system" SYSTEM_PROMPT none]
  | m :: rest =>
    if m.role = "system" then m :: rest
    else [Msg.mk "system" SYSTEM_PROMPT none]

/-! ## Concrete instances for counterexamples and witnesses -/

/-- An invoker oracle whose remote call always succeeds with "pong". -/
def exInv : String → String → Args → Except String String :=
  fun _ _ _ => Except.ok "pong"

/-- A catalog oracle returning an empty tools map. -/
def exLt : Unit → Except String (List (String × List ToolDesc)) :=
  fun _ => Except.ok []

/-- A trivial `json.dumps` stand-in. -/
def exDump : List (String × List ToolDesc) → String := fun _ => ""

/-- A well-formed `mcp_call_tool` request for `azure.ping`. -/
def exCall : ToolCall :=
  ToolCall.mk (some "mcp_call_tool") (some "azure") (some "ping") (some [])

/-- Model round 1: no visible content, one tool call. -/
def exResp1 : ModelResponse := ModelResponse.mk none [exCall]

/-- Model round 2: final answer "Done", no tool calls. -/
def exResp2 : ModelResponse := ModelResponse.mk (some "Done") []

/-- A fresh conversation: system prompt plus one user message. -/
def exConvStart : List Msg :=
  [Msg.mk "system" SYSTEM_PROMPT none, Msg.mk "user" "list my files" none]

/-- An `mcp_call_tool` request whose `server` argument is absent. -/
def exCallNoServer : ToolCall :=
  ToolCall.mk (some "mcp_call_tool") none (some "ping") none

/-- An invoker oracle whose remote call always raises. -/
def exInvFail : String → String → Args → Except String String :=
  fun _ _ _ => Except.error "boom"

/-- A remote tool result with no structured payload and three content
blocks, the middle one non-text. -/
def exRes : CallToolResult String :=
  CallToolResult.mk none
    [ContentBlock.textContent "hello", ContentBlock.otherContent "fields",
     ContentBlock.textContent "bye"]

/-- A transport oracle that returns `exRes` for every call. -/
def exRemote : String → String → Args → Except String (CallToolResult String) :=
  fun _ _ _ => Except.ok exRes

lemma corePortion_length_le (l : List Msg) : (corePortion l).length ≤ l.length := by
  cases l with
  | nil => simp [corePortion]
  | cons m rest =>
    by_cases hr : m.role = "system" <;> simp [corePortion, hr]

lemma pySliceLast_zero (l : List Msg) : pySliceLast l 0 = l := by
  simp [pySliceLast]

lemma pySliceLast_length_of (l : List Msg) (n : Nat) (h1 : n ≠ 0) (h2 : n ≤ l.length) :
    (pySliceLast l n).length = n := by
  simp only [pySliceLast, h1, if_false, List.length_drop]
  omega

lemma trim_history_cons (first : Msg) (rest : List Msg) (n : Nat) :
    trim_history (first :: rest) n =
      if first.role = "system" then
        (if rest.length ≤ n then first :: rest
         else first :: pySliceLast rest n)
      else
        (if (first :: rest).length ≤ n then first :: rest
         else pySliceLast (first :: rest) n) := by
  by_cases hr : first.role = "system" <;> simp [trim_history, hr]

lemma trim_history_zero (msgs : List Msg) : trim_history msgs 0 = msgs := by
  cases msgs with
  | nil => rfl
  | cons first rest =>
    rw [trim_history_cons]
    by_cases hr : first.role = "system" <;> simp [hr, pySliceLast_zero]

/-- Helper: the full behaviour of `trim_history` for a positive bound:
below-bound conversations are unchanged; otherwise the result is the optional
leading system message followed by the last `n` messages of the core, and the
result's core has at most `n` messages. -/
lemma trim_spec_aux (msgs : List Msg) (n : Nat) (h : 1 ≤ n) :
    ((corePortion msgs).length ≤ n → trim_history msgs n = msgs)
    ∧ (n < (corePortion msgs).length →
        trim_history msgs n =
          (leadSystem msgs).toList ++
            (corePortion msgs).drop ((corePortion msgs).length - n))
    ∧ (corePortion (trim_history msgs n)).length ≤ n := by
  have hn0 : n ≠ 0 := by omega
  cases msgs with
  | nil =>
    refine ⟨fun _ => rfl, fun hlt => by simp [corePortion] at hlt, ?_⟩
    simp [trim_history, corePortion]
  | cons first rest =>
    by_cases hr : first.role = "system"
    · have hcore : corePortion (first :: rest) = rest := by simp [corePortion, hr]
      have hlead : leadSystem (first :: rest) = some first := by
        simp [leadSystem, hr]
      by_cases hlen : rest.length ≤ n
      · have heq : trim_history (first :: rest) n = first :: rest := by
          rw [trim_history_cons, if_pos hr, if_pos hlen]
        refine ⟨fun _ => heq, fun hlt => ?_, ?_⟩
        · rw [hcore] at hlt; exact absurd hlen (by omega)
        · rw [heq, hcore]; exact hlen
      · have heq : trim_history (first :: rest) n = first :: pySliceLast rest n := by
          rw [trim_history_cons, if_pos hr, if_neg hlen]
        have hle : n ≤ rest.length := by omega
        have hlength := pySliceLast_length_of rest n hn0 hle
        refine ⟨fun hc => ?_, fun _ => ?_, ?_⟩
        · rw [hcore] at hc; exact absurd hc hlen
        · rw [heq, hcore, hlead]
          simp [pySliceLast, hn0]
        · rw [heq]
          have hstep : corePortion (first :: pySliceLast rest n) =
              pySliceLast rest n := by
            simp [corePortion, hr]
          rw [hstep, hlength]
    · have hcore : corePortion (first :: rest) = first :: rest := by
        simp [corePortion, hr]
      have hlead : leadSystem (first :: rest) = none := by simp [leadSystem, hr]
      by_cases hlen : (first :: rest).length ≤ n
      · have heq : trim_history (first :: rest) n = first :: rest := by
          rw [trim_history_cons, if_neg hr, if_pos hlen]
        refine ⟨fun _ => heq, fun hlt => ?_, ?_⟩
        · rw [hcore] at hlt; exact absurd hlen (by omega)
        · rw [heq, hcore]; exact hlen
      · have heq : trim_history (first :: rest) n =
            pySliceLast (first :: rest) n := by
          rw [trim_history_cons, if_neg hr, if_neg hlen]
        have hle : n ≤ (first :: rest).length := by omega
        have hlength := pySliceLast_length_of (first :: rest) n hn0 hle
        refine ⟨fun hc => ?_, fun _ => ?_, ?_⟩
        · rw [hcore] at hc; exact absurd hc hlen
        · rw [heq, hcore, hlead]
          simp [pySliceLast, hn0]
        · rw [heq]
          calc (corePortion (pySliceLast (first :: rest) n)).length
              ≤ (pySliceLast (first :: rest) n).length := corePortion_length_le _
            _ = n := hlength

end OllamaMulti

namespace OllamaMulti

/-- C1: for a positive bound, `trim_history` returns the conversation
unchanged when the non-system portion has at most `n` messages; otherwise it
returns the leading system message (when present) followed by the most recent
`n` core messages, and the result carries at most `n` non-system-portion
messages. (At `n = 0` the claim fails: see the counterexample.) -/
theorem trim_history_spec (msgs : List Msg) (n : Nat) (h : 1 ≤ n) :
    ((corePortion msgs).length ≤ n → trim_history msgs n = msgs)
    ∧ (n < (corePortion msgs).length →
        trim_history msgs n =
          (leadSystem msgs).toList ++
            (corePortion msgs).drop ((corePortion msgs).length - n))
    ∧ (corePortion (trim_history msgs n)).length ≤ n :=
  trim_spec_aux msgs n h

/-- C1 witness: the theorem applied to a concrete three-message conversation
with bound 1. -/
theorem trim_history_spec_witness :
    (1 ≤ 1)
    ∧ (((corePortion [Msg.mk "system" "s" none, Msg.mk "user" "a" none,
          Msg.mk "user" "b" none]).length ≤ 1 →
        trim_history [Msg.mk "system" "s" none, Msg.mk "user" "a" none,
          Msg.mk "user" "b" none] 1 =
          [Msg.mk "system" "s" none, Msg.mk "user" "a" none,
            Msg.mk "user" "b" none])
      ∧ (1 < (corePortion [Msg.mk "system" "s" none, Msg.mk "user" "a" none,
            Msg.mk "user" "b" none]).length →
          trim_history [Msg.mk "system" "s" none, Msg.mk "user" "a" none,
            Msg.mk "user" "b" none] 1 =
            (leadSystem [Msg.mk "system" "s" none, Msg.mk "user" "a" none,
              Msg.mk "user" "b" none]).toList ++
              (corePortion [Msg.mk "system" "s" none, Msg.mk "user" "a" none,
                Msg.mk "user" "b" none]).drop
                ((corePortion [Msg.mk "system" "s" none,
                  Msg.mk "user" "a" none, Msg.mk "user" "b" none]).length - 1))
      ∧ (corePortion (trim_history [Msg.mk "system" "s" none,
          Msg.mk "user" "a" none, Msg.mk "user" "b" none] 1)).length ≤ 1) :=
  ⟨by decide,
   trim_history_spec [Msg.mk "system" "s" none, Msg.mk "user" "a" none,
     Msg.mk "user" "b" none] 1 (by decide)⟩

/-- C1 counterexample: at `maxEntries = 0` with a single non-system message,
`trim_history` returns the conversation unchanged (Python `core[-0:]` is the
whole list), so the result keeps 1 > 0 non-system messages, contradicting the
claim for every `maxEntries`. -/
theorem trim_history_zero_keeps_all :
    trim_history [Msg.mk "user" "a" none] 0 = [Msg.mk "user" "a" none]
    ∧ ¬ (corePortion (trim_history [Msg.mk "user" "a" none] 0)).length ≤ 0 := by
  constructor
  · decide
  · decide

/-- C8: `trim_history` is idempotent: trimming an already-trimmed conversation
with the same bound changes nothing. -/
theorem trim_history_idem (msgs : List Msg) (n : Nat) :
    trim_history (trim_history msgs n) n = trim_history msgs n := by
  rcases Nat.eq_zero_or_pos n with h0 | hpos
  · subst h0
    rw [trim_history_zero, trim_history_zero]
  · exact (trim_spec_aux (trim_history msgs n) n hpos).1
      (trim_spec_aux msgs n hpos).2.2

lemma flattenParts_eq_map {σ : Type} (f : σ → String)
    (cs : List (ContentBlock σ)) :
    flattenParts f cs = cs.map (renderBlock f) := by
  induction cs with
  | nil => rfl
  | cons c cs ih => cases c <;> simp [flattenParts, renderBlock, ih]

/-- C2 amended: invoking a tool on an identity with no open session fails
with the "Unknown MCP server" error for every transport oracle (so no remote
call happens); the catalog query filtered by an unknown, non-empty identity
succeeds with an empty tool list for that identity instead of failing. -/
theorem unknown_server_spec :
    (∀ (σ : Type) (sessions : List String)
      (remote : String → String → Args → Except String (CallToolResult σ))
      (f : σ → String) (server tool_name : String) (arguments : Args),
      server ∉ sessions →
        call_tool sessions remote f server tool_name arguments =
          Except.error (s!"Unknown MCP server: {server}"))
    ∧ (∀ (tools_map : List (String × List ToolDesc)) (s : String),
        s.isEmpty = false → tools_map.lookup s = none →
          listToolsFiltered tools_map (some s) = [(s, [])]) := by
  constructor
  · intro σ sessions remote f server tool_name arguments hmem
    simp [call_tool, hmem]
  · intro tools_map s hs hlook
    simp [listToolsFiltered, hs, hlook]

/-- C2 witness: the theorem applied at the unknown identity "bogus" against
the two configured sessions and a one-entry catalog. -/
theorem unknown_server_spec_witness :
    ("bogus" ∉ ["azure", "filesystem"])
    ∧ @call_tool Unit ["azure", "filesystem"]
        (fun _ _ _ => Except.ok (CallToolResult.mk none []))
        (fun _ => "") "bogus" "ping" [] =
        Except.error "Unknown MCP server: bogus"
    ∧ ("bogus".isEmpty = false)
    ∧ ([("azure", [])].lookup "bogus" = (none : Option (List ToolDesc)))
    ∧ listToolsFiltered [("azure", [])] (some "bogus") = [("bogus", [])] :=
  ⟨by decide,
   unknown_server_spec.1 Unit ["azure", "filesystem"]
     (fun _ _ _ => Except.ok (CallToolResult.mk none []))
     (fun _ => "") "bogus" "ping" [] (by decide),
   rfl, rfl,
   unknown_server_spec.2 [("azure", [])] "bogus" rfl rfl⟩

/-- C2 counterexample: a catalog query filtered by the unknown identity
"bogus" does not fail with an "unknown server" condition — it succeeds with
an empty tool list — and it does invoke transport code: when the underlying
`list_tools` round trip fails, that failure surfaces. -/
theorem unknown_identity_no_failure :
    listToolsFiltered [("azure", []), ("filesystem", [])] (some "bogus") =
      [("bogus", [])]
    ∧ processCall (fun _ => Except.error "transport failure") exInv exDump
        (ToolCall.mk (some "mcp_list_tools") (some "bogus") none none) =
        Except.error "transport failure" :=
  ⟨rfl, rfl⟩

/-- C6: a successful remote tool call is normalized to a single string:
the serialized structured payload when one is present, otherwise the
newline-join, in block order, of each text block's text and the rendering of
each non-text block's fields. -/
theorem call_tool_normalizes (σ : Type) (sessions : List String)
    (remote : String → String → Args → Except String (CallToolResult σ))
    (f : σ → String) (server tool_name : String) (arguments : Args)
    (res : CallToolResult σ)
    (hmem : server ∈ sessions)
    (hok : remote server tool_name arguments = Except.ok res) :
    call_tool sessions remote f server tool_name arguments =
      Except.ok (match res.structuredContent with
        | some payload => f payload
        | none => String.intercalate "\n" (res.content.map (renderBlock f))) := by
  rcases res with ⟨sc, blocks⟩
  cases sc with
  | none => simp [call_tool, hmem, hok, flattenParts_eq_map]
  | some payload => simp [call_tool, hmem, hok]

/-- C6 witness: the theorem applied to a concrete three-block result with no
structured payload. -/
theorem call_tool_normalizes_witness :
    ("azure" ∈ ["azure", "filesystem"])
    ∧ (exRemote "azure" "ping" [] = Except.ok exRes)
    ∧ call_tool ["azure", "filesystem"] exRemote (fun s => s) "azure" "ping"
        [] = Except.ok "hello\nfields\nbye" := by
  refine ⟨by decide, rfl, ?_⟩
  have h := call_tool_normalizes String ["azure", "filesystem"] exRemote
    (fun s => s) "azure" "ping" [] exRes (by decide) rfl
  rw [h]
  rfl

/-- C4: an `mcp_call_tool` request whose server or tool argument is absent or
empty appends the fixed missing-parameter error message, with the same result
for every invoker oracle — the Invoker is never reached. -/
theorem missing_param_short_circuits
    (lt : Unit → Except String (List (String × List ToolDesc)))
    (dump : List (String × List ToolDesc) → String)
    (c : ToolCall) (msgs : List Msg)
    (h1 : c.name = some "mcp_call_tool")
    (h2 : pyTruthy c.server = false ∨ pyTruthy c.tool = false) :
    ∀ inv, processCalls lt inv dump [c] msgs =
      Except.ok (msgs ++ [Msg.mk "tool"
        "Error: mcp_call_tool requires 'server' and 'tool'."
        (some "mcp_call_tool")]) := by
  intro inv
  have hguard : (!pyTruthy c.server || !pyTruthy c.tool) = true := by
    rcases h2 with h | h <;> simp [h]
  simp [processCalls, processCall, h1, hguard]

/-- C4 witness: the theorem applied to a request with no server argument. -/
theorem missing_param_witness :
    (exCallNoServer.name = some "mcp_call_tool")
    ∧ (pyTruthy exCallNoServer.server = false ∨
        pyTruthy exCallNoServer.tool = false)
    ∧ processCalls exLt exInv exDump [exCallNoServer] [] =
      Except.ok [Msg.mk "tool"
        "Error: mcp_call_tool requires 'server' and 'tool'."
        (some "mcp_call_tool")] :=
  ⟨rfl, Or.inl rfl,
   missing_param_short_circuits exLt exDump exCallNoServer [] rfl
     (Or.inl rfl) exInv⟩

/-- C5: when both server and tool are present and the invocation raises, the
failure is converted into the "Error calling {server}.{tool}: {detail}"
string appended as the tool message content, and the loop result is a normal
`Except.ok` — the failure is not propagated. -/
theorem tool_failure_wrapped
    (lt : Unit → Except String (List (String × List ToolDesc)))
    (dump : List (String × List ToolDesc) → String)
    (inv : String → String → Args → Except String String)
    (c : ToolCall) (msgs : List Msg) (s t e : String)
    (h1 : c.name = some "mcp_call_tool")
    (hs : c.server = some s) (ht : c.tool = some t)
    (hs2 : s.isEmpty = false) (ht2 : t.isEmpty = false)
    (he : inv s t (c.arguments.getD []) = Except.error e) :
    processCalls lt inv dump [c] msgs =
      Except.ok (msgs ++ [Msg.mk "tool" (s!"Error calling {s}.{t}: {e}")
        (some "mcp_call_tool")]) := by
  simp [processCalls, processCall, h1, hs, ht, hs2, ht2, pyTruthy, he]

/-- C5 witness: the theorem applied to `azure.ping` with an invoker that
raises "boom". -/
theorem tool_failure_wrapped_witness :
    (exCall.name = some "mcp_call_tool")
    ∧ (exCall.server = some "azure")
    ∧ (exCall.tool = some "ping")
    ∧ ("azure".isEmpty = false)
    ∧ ("ping".isEmpty = false)
    ∧ (exInvFail "azure" "ping" (exCall.arguments.getD []) =
        Except.error "boom")
    ∧ processCalls exLt exInvFail exDump [exCall] [] =
      Except.ok [Msg.mk "tool" "Error calling azure.ping: boom"
        (some "mcp_call_tool")] :=
  ⟨rfl, rfl, rfl, rfl, rfl, rfl,
   tool_failure_wrapped exLt exDump exInvFail exCall [] "azure" "ping" "boom"
     rfl rfl rfl rfl rfl rfl⟩

/-- C3: the conversation produced by running the loop on a fresh
system+user conversation, with round 1 requesting one `azure.ping` call (the
invoker returns "pong") and round 2 answering "Done", is
`[system, user, tool "pong", assistant "Done"]` — its tool message is not
preceded by any assistant message, because the controller never appends the
assistant message that carried the tool-call request. -/
theorem tool_message_without_assistant :
    answerWithTools exLt exInv exDump [exResp1, exResp2] exConvStart =
      some (Except.ok (exConvStart ++
        [Msg.mk "tool" "pong" (some "mcp_call_tool"),
         Msg.mk "assistant" "Done" none], "Done"))
    ∧ everyToolPrecededByAssistant (exConvStart ++
        [Msg.mk "tool" "pong" (some "mcp_call_tool"),
         Msg.mk "assistant" "Done" none]) = false :=
  ⟨rfl, rfl⟩

/-- C7: a round whose model response carries zero tool calls is terminal:
the buffered chunks are joined with newline, appended as exactly one
assistant message, and returned; a response with neither content nor tool
calls yields the empty answer. -/
theorem terminal_round
    (lt : Unit → Except String (List (String × List ToolDesc)))
    (inv : String → String → Args → Except String String)
    (dump : List (String × List ToolDesc) → String)
    (r : ModelResponse) (rest : List ModelResponse) (msgs : List Msg)
    (h : r.tool_calls = []) :
    (answerWithTools lt inv dump (r :: rest) msgs =
      some (Except.ok
        (msgs ++
          [Msg.mk "assistant" (pyJoinChunks (contentChunks r.content)) none],
          pyJoinChunks (contentChunks r.content))))
    ∧ (∀ (resps : List ModelResponse) (msgs2 : List Msg)
        (chunks : List String),
        runLoop lt inv dump resps [] msgs2 chunks =
          some (Except.ok
            (msgs2 ++ [Msg.mk "assistant" (pyJoinChunks chunks) none],
              pyJoinChunks chunks)))
    ∧ (r.content = none → pyJoinChunks (contentChunks r.content) = "") := by
  refine ⟨?_, fun resps msgs2 chunks => ?_, fun hc => ?_⟩
  · simp [answerWithTools, h, runLoop]
  · simp [runLoop]
  · rw [hc]
    rfl

/-- C7 witness: the theorem applied to the no-tool-calls response "Done" on
an empty prior conversation. -/
theorem terminal_round_witness :
    (exResp2.tool_calls = [])
    ∧ answerWithTools exLt exInv exDump [exResp2] [] =
      some (Except.ok
        ([Msg.mk "assistant" (pyJoinChunks (contentChunks exResp2.content))
            none],
          pyJoinChunks (contentChunks exResp2.content))) :=
  ⟨rfl, (terminal_round exLt exInv exDump exResp2 [] [] rfl).1⟩

/-- C9: loading an absent or unparsable history file yields the empty
conversation rather than failing, and saving never raises to its caller for
any write outcome. -/
theorem history_persistence_resilient :
    (∀ parse : String → Option (List Msg), load_history none parse = [])
    ∧ (∀ (s : String) (parse : String → Option (List Msg)),
        parse s = none → load_history (some s) parse = [])
    ∧ (∀ (write : String → Except String Unit) (serialized : String),
        ∃ u, save_history write serialized = Except.ok u) := by
  refine ⟨fun parse => rfl, fun s parse hp => ?_, fun write serialized => ?_⟩
  · simp [load_history, hp]
  · cases hw : write serialized with
    | ok u => exact ⟨u, by simp [save_history, hw]⟩
    | error e => exact ⟨(), by simp [save_history, hw]⟩

/-- C9 witness: the theorem applied to an absent file, an unparsable file,
and a failing write. -/
theorem history_persistence_witness :
    (load_history none (fun _ => none) = [])
    ∧ ((fun _ => (none : Option (List Msg))) "garbage" =
        (none : Option (List Msg)))
    ∧ (load_history (some "garbage") (fun _ => none) = [])
    ∧ (∃ u, save_history (fun _ => Except.error "disk full") "x" =
        Except.ok u) :=
  ⟨history_persistence_resilient.1 (fun _ => none),
   rfl,
   history_persistence_resilient.2.1 "garbage" (fun _ => none) rfl,
   history_persistence_resilient.2.2 (fun _ => Except.error "disk full") "x"⟩

/-- C10: when the loaded history is empty or does not start with a
system-role message, startup discards it entirely and seeds the conversation
with exactly the single system-prompt message. -/
theorem start_seeds_system (loaded : List Msg)
    (h : loaded = [] ∨ ∀ m rest, loaded = m :: rest → m.role ≠ "system") :
    startMessages loaded = [Msg.mk "system" SYSTEM_PROMPT none] := by
  cases loaded with
  | nil => rfl
  | cons m rest =>
    rcases h with h | h
    · exact absurd h (by simp)
    · have hm : m.role ≠ "system" := h m rest rfl
      simp [startMessages, hm]

/-- C10 witness: the theorem applied to a loaded history whose first message
has role `user`. -/
theorem start_seeds_system_witness :
    (([Msg.mk "user" "hi" none] : List Msg) = [] ∨
      ∀ m rest, ([Msg.mk "user" "hi" none] : List Msg) = m :: rest →
        m.role ≠ "system")
    ∧ startMessages [Msg.mk "user" "hi" none] =
      [Msg.mk "system" SYSTEM_PROMPT none] :=
  ⟨Or.inr (fun m rest hEq => by
      injection hEq with h1 h2
      rw [← h1]
      decide),
   start_seeds_system [Msg.mk "user" "hi" none]
     (Or.inr (fun m rest hEq => by
        injection hEq with h1 h2
        rw [← h1]
        decide))⟩

end OllamaMulti
